import Mathlib

/-!
Shallow embedding of the `gemrs` geometry library (src/src/lib.rs).

The library defines four generic value types: `Vector2<T>`, `Point2<T>`,
`Vector3<T>`, `Point3<T>`, each a tuple struct of scalars of type `T`,
together with componentwise operators. Every Rust `impl` is generic over
the scalar type `T` and only assumes the trait capability the operation
needs (`PartialEq`, `Add`, `Sub`, `Neg`, `Mul`, `Div`); here each such
capability is passed as an explicit function argument (`teq`, `tne`,
`tadd`, ...), so the Lean definitions are generic exactly where the Rust
code is. Rust `&mut self` assignment operators (`add_assign` etc.) write
a freshly built value into the receiver; they are modelled as pure
functions returning the new receiver value, which is the only observable
effect of the Rust code.
-/

namespace Gemrs

/-- `Vector2<T>` (lib.rs line 10): a tuple struct of two scalars.
Field `x` is the Rust field `.0`, field `y` is `.1`. -/
structure Vector2 (T : Type) where
  x : T
  y : T
deriving Repr, DecidableEq

/-- `Point2<T>` (lib.rs line 14): a tuple struct of two scalars. -/
structure Point2 (T : Type) where
  x : T
  y : T
deriving Repr, DecidableEq

/-- `Vector3<T>` (lib.rs line 165): a tuple struct of three scalars. -/
structure Vector3 (T : Type) where
  x : T
  y : T
  z : T
deriving Repr, DecidableEq

/-- `Point3<T>` (lib.rs line 169): a tuple struct of three scalars. -/
structure Point3 (T : Type) where
  x : T
  y : T
  z : T
deriving Repr, DecidableEq

variable {T : Type}

/-- `Vector2::eq` (lib.rs lines 19-21): `self.0 == v.0 && self.1 == v.1`,
where `==` on components is the scalar `PartialEq::eq`, passed as `teq`. -/
def Vector2.eq (teq : T → T → Bool) (v w : Vector2 T) : Bool :=
  teq v.x w.x && teq v.y w.y

/-- `Vector2::ne` (lib.rs lines 22-24): `self.0 != v.0 || self.1 != v.1`,
where `!=` on components is the scalar `PartialEq::ne`, passed as `tne`. -/
def Vector2.ne (tne : T → T → Bool) (v w : Vector2 T) : Bool :=
  tne v.x w.x || tne v.y w.y

/-- `Vector2::neg` (lib.rs lines 31-33): componentwise negation. -/
def Vector2.neg (tneg : T → T) (v : Vector2 T) : Vector2 T :=
  ⟨tneg v.x, tneg v.y⟩

/-- `Vector2::add` (lib.rs lines 40-42): componentwise addition. -/
def Vector2.add (tadd : T → T → T) (v w : Vector2 T) : Vector2 T :=
  ⟨tadd v.x w.x, tadd v.y w.y⟩

/-- `Vector2::add_assign` (lib.rs lines 47-49): `*self = Self(self.0 + v.0, self.1 + v.1)`;
returns the value written into the receiver. -/
def Vector2.addAssign (tadd : T → T → T) (s v : Vector2 T) : Vector2 T :=
  ⟨tadd s.x v.x, tadd s.y v.y⟩

/-- `Vector2::sub` (lib.rs lines 56-58): componentwise subtraction. -/
def Vector2.sub (tsub : T → T → T) (v w : Vector2 T) : Vector2 T :=
  ⟨tsub v.x w.x, tsub v.y w.y⟩

/-- `Vector2::sub_assign` (lib.rs lines 63-65). -/
def Vector2.subAssign (tsub : T → T → T) (s v : Vector2 T) : Vector2 T :=
  ⟨tsub s.x v.x, tsub s.y v.y⟩

/-- `Vector2::mul` (lib.rs lines 73-75): `Vector2(self.0 * k, self.1 * k)`;
the scalar `k` is the right operand of the scalar multiplication. -/
def Vector2.mul (tmul : T → T → T) (v : Vector2 T) (k : T) : Vector2 T :=
  ⟨tmul v.x k, tmul v.y k⟩

/-- `Vector2::mul_assign` (lib.rs lines 80-82). -/
def Vector2.mulAssign (tmul : T → T → T) (s : Vector2 T) (k : T) : Vector2 T :=
  ⟨tmul s.x k, tmul s.y k⟩

/-- `Vector2::div` (lib.rs lines 90-92): `Vector2(self.0 / k, self.1 / k)`. -/
def Vector2.div (tdiv : T → T → T) (v : Vector2 T) (k : T) : Vector2 T :=
  ⟨tdiv v.x k, tdiv v.y k⟩

/-- `Vector2::div_assign` (lib.rs lines 98-100). -/
def Vector2.divAssign (tdiv : T → T → T) (s : Vector2 T) (k : T) : Vector2 T :=
  ⟨tdiv s.x k, tdiv s.y k⟩

/-- `Vector2::dot` (lib.rs lines 106-108): `self.0 * v.0 + self.1 * v.1`. -/
def Vector2.dot (tadd tmul : T → T → T) (v w : Vector2 T) : T :=
  tadd (tmul v.x w.x) (tmul v.y w.y)

/-- `Point2::eq` (lib.rs lines 114-116). -/
def Point2.eq (teq : T → T → Bool) (p q : Point2 T) : Bool :=
  teq p.x q.x && teq p.y q.y

/-- `Point2::ne` (lib.rs lines 117-119). -/
def Point2.ne (tne : T → T → Bool) (p q : Point2 T) : Bool :=
  tne p.x q.x || tne p.y q.y

/-- `impl Add<Vector2<T>> for Point2<T>` (lib.rs lines 126-128):
point + vector, componentwise, yielding a point. -/
def Point2.addVector (tadd : T → T → T) (p : Point2 T) (v : Vector2 T) : Point2 T :=
  ⟨tadd p.x v.x, tadd p.y v.y⟩

/-- `impl AddAssign<Vector2<T>> for Point2<T>` (lib.rs lines 133-135). -/
def Point2.addAssignVector (tadd : T → T → T) (p : Point2 T) (v : Vector2 T) : Point2 T :=
  ⟨tadd p.x v.x, tadd p.y v.y⟩

/-- `impl Sub<Vector2<T>> for Point2<T>` (lib.rs lines 142-144):
point − vector, componentwise, yielding a point. -/
def Point2.subVector (tsub : T → T → T) (p : Point2 T) (v : Vector2 T) : Point2 T :=
  ⟨tsub p.x v.x, tsub p.y v.y⟩

/-- `impl SubAssign<Vector2<T>> for Point2<T>` (lib.rs lines 149-151). -/
def Point2.subAssignVector (tsub : T → T → T) (p : Point2 T) (v : Vector2 T) : Point2 T :=
  ⟨tsub p.x v.x, tsub p.y v.y⟩

/-- `impl Sub for Point2<T>` (lib.rs lines 155-161): point − point.
NOTE: in the source, `type Output = Point2<T>` and the body builds
`Point2(self.0 - p.0, self.1 - p.1)` — the returned value is a `Point2`,
even though the doc comment on line 154 reads `(-): Point × Point -> Vector`. -/
def Point2.subPoint (tsub : T → T → T) (p q : Point2 T) : Point2 T :=
  ⟨tsub p.x q.x, tsub p.y q.y⟩

/-- `Vector3::eq` (lib.rs lines 174-176). -/
def Vector3.eq (teq : T → T → Bool) (v w : Vector3 T) : Bool :=
  teq v.x w.x && teq v.y w.y && teq v.z w.z

/-- `Vector3::ne` (lib.rs lines 177-179). -/
def Vector3.ne (tne : T → T → Bool) (v w : Vector3 T) : Bool :=
  tne v.x w.x || tne v.y w.y || tne v.z w.z

/-- `Vector3::neg` (lib.rs lines 186-188). -/
def Vector3.neg (tneg : T → T) (v : Vector3 T) : Vector3 T :=
  ⟨tneg v.x, tneg v.y, tneg v.z⟩

/-- `Vector3::add` (lib.rs lines 195-197). -/
def Vector3.add (tadd : T → T → T) (v w : Vector3 T) : Vector3 T :=
  ⟨tadd v.x w.x, tadd v.y w.y, tadd v.z w.z⟩

/-- `Vector3::add_assign` (lib.rs lines 202-204). -/
def Vector3.addAssign (tadd : T → T → T) (s v : Vector3 T) : Vector3 T :=
  ⟨tadd s.x v.x, tadd s.y v.y, tadd s.z v.z⟩

/-- `Vector3::sub` (lib.rs lines 211-213). -/
def Vector3.sub (tsub : T → T → T) (v w : Vector3 T) : Vector3 T :=
  ⟨tsub v.x w.x, tsub v.y w.y, tsub v.z w.z⟩

/-- `Vector3::sub_assign` (lib.rs lines 218-220). -/
def Vector3.subAssign (tsub : T → T → T) (s v : Vector3 T) : Vector3 T :=
  ⟨tsub s.x v.x, tsub s.y v.y, tsub s.z v.z⟩

/-- `Vector3::mul` (lib.rs lines 228-230): scalar `k` on the right. -/
def Vector3.mul (tmul : T → T → T) (v : Vector3 T) (k : T) : Vector3 T :=
  ⟨tmul v.x k, tmul v.y k, tmul v.z k⟩

/-- `Vector3::mul_assign` (lib.rs lines 235-237). -/
def Vector3.mulAssign (tmul : T → T → T) (s : Vector3 T) (k : T) : Vector3 T :=
  ⟨tmul s.x k, tmul s.y k, tmul s.z k⟩

/-- `Vector3::div` (lib.rs lines 245-247). -/
def Vector3.div (tdiv : T → T → T) (v : Vector3 T) (k : T) : Vector3 T :=
  ⟨tdiv v.x k, tdiv v.y k, tdiv v.z k⟩

/-- `Vector3::div_assign` (lib.rs lines 253-255). -/
def Vector3.divAssign (tdiv : T → T → T) (s : Vector3 T) (k : T) : Vector3 T :=
  ⟨tdiv s.x k, tdiv s.y k, tdiv s.z k⟩

/-- `Vector3::dot` (lib.rs lines 261-263): `self.0 * v.0 + self.1 * v.1 + self.2 * v.2`,
which associates as `(x1*x2 + y1*y2) + z1*z2`. -/
def Vector3.dot (tadd tmul : T → T → T) (v w : Vector3 T) : T :=
  tadd (tadd (tmul v.x w.x) (tmul v.y w.y)) (tmul v.z w.z)

/-- `Point3::eq` (lib.rs lines 269-271). -/
def Point3.eq (teq : T → T → Bool) (p q : Point3 T) : Bool :=
  teq p.x q.x && teq p.y q.y && teq p.z q.z

/-- `Point3::ne` (lib.rs lines 272-274). -/
def Point3.ne (tne : T → T → Bool) (p q : Point3 T) : Bool :=
  tne p.x q.x || tne p.y q.y || tne p.z q.z

/-- `impl Add<Vector3<T>> for Point3<T>` (lib.rs lines 281-283). -/
def Point3.addVector (tadd : T → T → T) (p : Point3 T) (v : Vector3 T) : Point3 T :=
  ⟨tadd p.x v.x, tadd p.y v.y, tadd p.z v.z⟩

/-- `impl AddAssign<Vector3<T>> for Point3<T>` (lib.rs lines 288-290). -/
def Point3.addAssignVector (tadd : T → T → T) (p : Point3 T) (v : Vector3 T) : Point3 T :=
  ⟨tadd p.x v.x, tadd p.y v.y, tadd p.z v.z⟩

/-- `impl Sub<Vector3<T>> for Point3<T>` (lib.rs lines 297-299). -/
def Point3.subVector (tsub : T → T → T) (p : Point3 T) (v : Vector3 T) : Point3 T :=
  ⟨tsub p.x v.x, tsub p.y v.y, tsub p.z v.z⟩

/-- `impl SubAssign<Vector3<T>> for Point3<T>` (lib.rs lines 304-306). -/
def Point3.subAssignVector (tsub : T → T → T) (p : Point3 T) (v : Vector3 T) : Point3 T :=
  ⟨tsub p.x v.x, tsub p.y v.y, tsub p.z v.z⟩

/-- `impl Sub for Point3<T>` (lib.rs lines 310-316): point − point.
NOTE: in the source, `type Output = Point3<T>` and the body builds
`Point3(self.0 - p.0, self.1 - p.1, self.2 - p.2)` — the returned value is a
`Point3`, even though the doc comment on line 309 reads `(-): Point × Point -> Vector`. -/
def Point3.subPoint (tsub : T → T → T) (p q : Point3 T) : Point3 T :=
  ⟨tsub p.x q.x, tsub p.y q.y, tsub p.z q.z⟩

/-!
Theorems about the embedded operations, one per claim of the specification.
-/

/-- Claim C1 (evaluation at the failing input): in the source, point − point
is implemented with `type Output = Point2<T>` (resp. `Point3<T>`), so the
subtraction of two points yields the componentwise difference as a *point*
value, not as a `Vector2`/`Vector3`: `Point2(1,1) - Point2(2,2)` evaluates to
the `Point2` value `(-1,-1)`, and likewise in 3D. -/
theorem point_sub_point_evaluates_to_point :
    Point2.subPoint (fun a b => a - b) (⟨1, 1⟩ : Point2 Int) ⟨2, 2⟩
      = (⟨-1, -1⟩ : Point2 Int)
    ∧ Point3.subPoint (fun a b => a - b) (⟨1, 1, 1⟩ : Point3 Int) ⟨2, 2, 2⟩
      = (⟨-1, -1, -1⟩ : Point3 Int) := by
  exact ⟨by decide, by decide⟩

/-- Claim C2: for every scalar whose `ne` is the boolean negation of its `eq`
(the contract of Rust's `PartialEq`), the inequality of each of the four
types is the exact logical negation of its equality. -/
theorem ne_is_negation_of_eq (T : Type) (teq tne : T → T → Bool)
    (h : ∀ a b, tne a b = !(teq a b))
    (v w : Vector2 T) (v3 w3 : Vector3 T) (p q : Point2 T) (p3 q3 : Point3 T) :
    Vector2.ne tne v w = !(Vector2.eq teq v w)
    ∧ Vector3.ne tne v3 w3 = !(Vector3.eq teq v3 w3)
    ∧ Point2.ne tne p q = !(Point2.eq teq p q)
    ∧ Point3.ne tne p3 q3 = !(Point3.eq teq p3 q3) := by
  refine ⟨?_, ?_, ?_, ?_⟩ <;>
    simp [Vector2.ne, Vector2.eq, Vector3.ne, Vector3.eq, Point2.ne, Point2.eq,
      Point3.ne, Point3.eq, h, Bool.not_and, Bool.not_or]

/-- Claim C2 witness: the negation law at concrete integer inputs, with the
scalar equality `Int.beq` and its boolean negation as scalar inequality. -/
theorem ne_is_negation_of_eq_witness :
    Vector2.ne (fun a b : Int => !(a == b)) ⟨1, 0⟩ ⟨0, 1⟩
      = !(Vector2.eq (fun a b : Int => a == b) ⟨1, 0⟩ ⟨0, 1⟩)
    ∧ Vector3.ne (fun a b : Int => !(a == b)) ⟨1, 0, -1⟩ ⟨0, 1, -1⟩
      = !(Vector3.eq (fun a b : Int => a == b) ⟨1, 0, -1⟩ ⟨0, 1, -1⟩)
    ∧ Point2.ne (fun a b : Int => !(a == b)) ⟨1, 0⟩ ⟨0, 1⟩
      = !(Point2.eq (fun a b : Int => a == b) ⟨1, 0⟩ ⟨0, 1⟩)
    ∧ Point3.ne (fun a b : Int => !(a == b)) ⟨1, 0, -1⟩ ⟨0, 1, -1⟩
      = !(Point3.eq (fun a b : Int => a == b) ⟨1, 0, -1⟩ ⟨0, 1, -1⟩) :=
  ne_is_negation_of_eq Int (fun a b => a == b) (fun a b => !(a == b))
    (fun _ _ => rfl) ⟨1, 0⟩ ⟨0, 1⟩ ⟨1, 0, -1⟩ ⟨0, 1, -1⟩ ⟨1, 0⟩ ⟨0, 1⟩
    ⟨1, 0, -1⟩ ⟨0, 1, -1⟩

/-- Claim C3: for every scalar equality `teq` and values of the same type,
the equality of each of the four types holds iff every component pair is
equal under `teq`. -/
theorem eq_iff_components_eq (T : Type) (teq : T → T → Bool)
    (v w : Vector2 T) (v3 w3 : Vector3 T) (p q : Point2 T) (p3 q3 : Point3 T) :
    (Vector2.eq teq v w = true ↔ (teq v.x w.x = true ∧ teq v.y w.y = true))
    ∧ (Vector3.eq teq v3 w3 = true
        ↔ (teq v3.x w3.x = true ∧ teq v3.y w3.y = true ∧ teq v3.z w3.z = true))
    ∧ (Point2.eq teq p q = true ↔ (teq p.x q.x = true ∧ teq p.y q.y = true))
    ∧ (Point3.eq teq p3 q3 = true
        ↔ (teq p3.x q3.x = true ∧ teq p3.y q3.y = true ∧ teq p3.z q3.z = true)) := by
  refine ⟨?_, ?_, ?_, ?_⟩ <;>
    simp [Vector2.eq, Vector3.eq, Point2.eq, Point3.eq, and_assoc]

/-- Claim C4 counterexample: the claim quantifies over *every* scalar type
with `PartialEq`, but Rust's `PartialEq` does not require reflexivity (e.g.
`f64` with NaN); with the irreflexive scalar equality `fun _ _ => false`,
`v == v` evaluates to `false` at the concrete vector `(0, 0)`. -/
theorem vector2_eq_not_reflexive_for_irreflexive_scalar :
    Vector2.eq (fun _ _ : Int => false) ⟨0, 0⟩ ⟨0, 0⟩ = false := rfl

/-- Claim C4 (amended): for every scalar type whose equality is reflexive,
equality of each of the four types is reflexive. -/
theorem eq_refl_of_scalar_refl (T : Type) (teq : T → T → Bool)
    (h : ∀ a, teq a a = true)
    (v : Vector2 T) (v3 : Vector3 T) (p : Point2 T) (p3 : Point3 T) :
    Vector2.eq teq v v = true ∧ Vector3.eq teq v3 v3 = true
    ∧ Point2.eq teq p p = true ∧ Point3.eq teq p3 p3 = true := by
  refine ⟨?_, ?_, ?_, ?_⟩ <;>
    simp [Vector2.eq, Vector3.eq, Point2.eq, Point3.eq, h]

/-- Claim C4 witness: reflexivity at concrete integer inputs with the
reflexive scalar equality `Int.beq`. -/
theorem eq_refl_of_scalar_refl_witness :
    Vector2.eq (fun a b : Int => a == b) ⟨1, 2⟩ ⟨1, 2⟩ = true
    ∧ Vector3.eq (fun a b : Int => a == b) ⟨1, 2, 3⟩ ⟨1, 2, 3⟩ = true
    ∧ Point2.eq (fun a b : Int => a == b) ⟨1, 2⟩ ⟨1, 2⟩ = true
    ∧ Point3.eq (fun a b : Int => a == b) ⟨1, 2, 3⟩ ⟨1, 2, 3⟩ = true :=
  eq_refl_of_scalar_refl Int (fun a b => a == b) (fun a => by simp)
    ⟨1, 2⟩ ⟨1, 2, 3⟩ ⟨1, 2⟩ ⟨1, 2, 3⟩

/-- Claim C5: the dot product of the vector types is the sum of the
componentwise products (associated as in the source, `(x+y)+z` in 3D),
yielding a scalar; the point types carry no dot product in the embedding,
mirroring the source, where `dot` is defined only on `Vector2`/`Vector3`. -/
theorem dot_is_sum_of_componentwise_products (T : Type) (tadd tmul : T → T → T)
    (v w : Vector2 T) (a b : Vector3 T) :
    Vector2.dot tadd tmul v w = tadd (tmul v.x w.x) (tmul v.y w.y)
    ∧ Vector3.dot tadd tmul a b
      = tadd (tadd (tmul a.x b.x) (tmul a.y b.y)) (tmul a.z b.z) :=
  ⟨rfl, rfl⟩

/-- Claim C6: each in-place arithmetic-assignment operation writes into the
receiver exactly the value computed by the corresponding non-assigning
operation on the receiver's old value and the argument; in this pure model
the written value is the function's result, and no other value is touched. -/
theorem assign_ops_match_non_assign_ops (T : Type) (tadd tsub tmul tdiv : T → T → T)
    (s v : Vector2 T) (s3 v3 : Vector3 T) (p : Point2 T) (p3 : Point3 T) (k : T) :
    Vector2.addAssign tadd s v = Vector2.add tadd s v
    ∧ Vector2.subAssign tsub s v = Vector2.sub tsub s v
    ∧ Vector2.mulAssign tmul s k = Vector2.mul tmul s k
    ∧ Vector2.divAssign tdiv s k = Vector2.div tdiv s k
    ∧ Vector3.addAssign tadd s3 v3 = Vector3.add tadd s3 v3
    ∧ Vector3.subAssign tsub s3 v3 = Vector3.sub tsub s3 v3
    ∧ Vector3.mulAssign tmul s3 k = Vector3.mul tmul s3 k
    ∧ Vector3.divAssign tdiv s3 k = Vector3.div tdiv s3 k
    ∧ Point2.addAssignVector tadd p v = Point2.addVector tadd p v
    ∧ Point2.subAssignVector tsub p v = Point2.subVector tsub p v
    ∧ Point3.addAssignVector tadd p3 v3 = Point3.addVector tadd p3 v3
    ∧ Point3.subAssignVector tsub p3 v3 = Point3.subVector tsub p3 v3 :=
  ⟨rfl, rfl, rfl, rfl, rfl, rfl, rfl, rfl, rfl, rfl, rfl, rfl⟩

/-- Claim C7: when the scalar subtraction inverts the scalar addition,
translating a point by a vector and back returns the original point:
`(p + v) - v = p` and `(p - v) + v = p`, in 2D and in 3D. -/
theorem translation_round_trip (T : Type) (tadd tsub : T → T → T)
    (hsa : ∀ a b, tsub (tadd a b) b = a) (has : ∀ a b, tadd (tsub a b) b = a)
    (p : Point2 T) (v : Vector2 T) (p3 : Point3 T) (v3 : Vector3 T) :
    Point2.subVector tsub (Point2.addVector tadd p v) v = p
    ∧ Point2.addVector tadd (Point2.subVector tsub p v) v = p
    ∧ Point3.subVector tsub (Point3.addVector tadd p3 v3) v3 = p3
    ∧ Point3.addVector tadd (Point3.subVector tsub p3 v3) v3 = p3 := by
  obtain ⟨px, py⟩ := p; obtain ⟨vx, vy⟩ := v
  obtain ⟨qx, qy, qz⟩ := p3; obtain ⟨wx, wy, wz⟩ := v3
  refine ⟨?_, ?_, ?_, ?_⟩ <;>
    simp [Point2.addVector, Point2.subVector, Point3.addVector, Point3.subVector,
      hsa, has]

/-- Claim C7 witness: the translation round-trip at concrete integer points
and vectors. -/
theorem translation_round_trip_witness :
    Point2.subVector (fun a b => a - b)
      (Point2.addVector (fun a b => a + b) ⟨1, 1⟩ ⟨2, 3⟩) ⟨2, 3⟩ = (⟨1, 1⟩ : Point2 Int)
    ∧ Point2.addVector (fun a b => a + b)
      (Point2.subVector (fun a b => a - b) ⟨1, 1⟩ ⟨2, 3⟩) ⟨2, 3⟩ = (⟨1, 1⟩ : Point2 Int)
    ∧ Point3.subVector (fun a b => a - b)
      (Point3.addVector (fun a b => a + b) ⟨1, 1, 1⟩ ⟨2, 3, 4⟩) ⟨2, 3, 4⟩
      = (⟨1, 1, 1⟩ : Point3 Int)
    ∧ Point3.addVector (fun a b => a + b)
      (Point3.subVector (fun a b => a - b) ⟨1, 1, 1⟩ ⟨2, 3, 4⟩) ⟨2, 3, 4⟩
      = (⟨1, 1, 1⟩ : Point3 Int) :=
  translation_round_trip Int (fun a b => a + b) (fun a b => a - b)
    (fun a b => by show a + b - b = a; omega) (fun a b => by show a - b + b = a; omega)
    ⟨1, 1⟩ ⟨2, 3⟩ ⟨1, 1, 1⟩ ⟨2, 3, 4⟩

/-- Claim C8: when the scalar division inverts the scalar multiplication for
divisors distinct from a designated zero, scaling a vector by a non-zero
scalar `k` and dividing by `k` returns the original vector, in 2D and 3D. -/
theorem scale_div_round_trip (T : Type) (tmul tdiv : T → T → T) (zero : T)
    (hinv : ∀ a k, k ≠ zero → tdiv (tmul a k) k = a)
    (v : Vector2 T) (v3 : Vector3 T) (k : T) (hk : k ≠ zero) :
    Vector2.div tdiv (Vector2.mul tmul v k) k = v
    ∧ Vector3.div tdiv (Vector3.mul tmul v3 k) k = v3 := by
  obtain ⟨vx, vy⟩ := v; obtain ⟨wx, wy, wz⟩ := v3
  refine ⟨?_, ?_⟩
  · simp only [Vector2.mul, Vector2.div, Vector2.mk.injEq]
    exact ⟨hinv vx k hk, hinv vy k hk⟩
  · simp only [Vector3.mul, Vector3.div, Vector3.mk.injEq]
    exact ⟨hinv wx k hk, hinv wy k hk, hinv wz k hk⟩

/-- Claim C8 witness: the multiply/divide round-trip over the rationals
(exact arithmetic) at the concrete vectors `(1, 1)` and `(1, 1, 1)` with
the non-zero scalar `2`. -/
theorem scale_div_round_trip_witness :
    Vector2.div (fun a b => a / b)
      (Vector2.mul (fun a b => a * b) ⟨1, 1⟩ 2) 2 = (⟨1, 1⟩ : Vector2 ℚ)
    ∧ Vector3.div (fun a b => a / b)
      (Vector3.mul (fun a b => a * b) ⟨1, 1, 1⟩ 2) 2 = (⟨1, 1, 1⟩ : Vector3 ℚ) :=
  scale_div_round_trip ℚ (fun a b => a * b) (fun a b => a / b) 0
    (fun a k hk => mul_div_cancel_right₀ a hk) ⟨1, 1⟩ ⟨1, 1, 1⟩ 2 (by norm_num)

/-- Claim C9: over a commutative ring, the dot product of the source is
symmetric and additive in its first argument, in 2D and in 3D. -/
theorem dot_bilinear (R : Type) [CommRing R]
    (u v w : Vector2 R) (a b c : Vector3 R) :
    Vector2.dot (· + ·) (· * ·) v w = Vector2.dot (· + ·) (· * ·) w v
    ∧ Vector2.dot (· + ·) (· * ·) (Vector2.add (· + ·) v w) u
      = Vector2.dot (· + ·) (· * ·) v u + Vector2.dot (· + ·) (· * ·) w u
    ∧ Vector3.dot (· + ·) (· * ·) b c = Vector3.dot (· + ·) (· * ·) c b
    ∧ Vector3.dot (· + ·) (· * ·) (Vector3.add (· + ·) b c) a
      = Vector3.dot (· + ·) (· * ·) b a + Vector3.dot (· + ·) (· * ·) c a := by
  refine ⟨?_, ?_, ?_, ?_⟩ <;>
    simp only [Vector2.dot, Vector3.dot, Vector2.add, Vector3.add] <;> ring

/-- Claim C9 witness: symmetry and first-argument additivity of the dot
product at concrete integer vectors. -/
theorem dot_bilinear_witness :
    Vector2.dot (· + ·) (· * ·) (⟨3, 4⟩ : Vector2 ℤ) ⟨5, 6⟩
      = Vector2.dot (· + ·) (· * ·) ⟨5, 6⟩ ⟨3, 4⟩
    ∧ Vector2.dot (· + ·) (· * ·) (Vector2.add (· + ·) ⟨3, 4⟩ ⟨5, 6⟩) (⟨1, 2⟩ : Vector2 ℤ)
      = Vector2.dot (· + ·) (· * ·) ⟨3, 4⟩ ⟨1, 2⟩
        + Vector2.dot (· + ·) (· * ·) ⟨5, 6⟩ ⟨1, 2⟩
    ∧ Vector3.dot (· + ·) (· * ·) (⟨4, 5, 6⟩ : Vector3 ℤ) ⟨7, 8, 9⟩
      = Vector3.dot (· + ·) (· * ·) ⟨7, 8, 9⟩ ⟨4, 5, 6⟩
    ∧ Vector3.dot (· + ·) (· * ·)
        (Vector3.add (· + ·) ⟨4, 5, 6⟩ ⟨7, 8, 9⟩) (⟨1, 2, 3⟩ : Vector3 ℤ)
      = Vector3.dot (· + ·) (· * ·) ⟨4, 5, 6⟩ ⟨1, 2, 3⟩
        + Vector3.dot (· + ·) (· * ·) ⟨7, 8, 9⟩ ⟨1, 2, 3⟩ :=
  dot_bilinear ℤ ⟨1, 2⟩ ⟨3, 4⟩ ⟨5, 6⟩ ⟨1, 2, 3⟩ ⟨4, 5, 6⟩ ⟨7, 8, 9⟩

/-- Claim C10: scalar multiplication and division place the scalar `k` as
the right operand of the scalar operation in every component; with the
non-commutative scalar operation `a - b` this is visibly right-scaling:
`Vector2(5, 7) * 2` yields `(5-2, 7-2) = (3, 5)`, not `(2-5, 2-7)`. -/
theorem scalar_mul_div_right_operand (T : Type) (tmul tdiv : T → T → T)
    (v : Vector2 T) (v3 : Vector3 T) (k : T) :
    Vector2.mul tmul v k = ⟨tmul v.x k, tmul v.y k⟩
    ∧ Vector2.div tdiv v k = ⟨tdiv v.x k, tdiv v.y k⟩
    ∧ Vector3.mul tmul v3 k = ⟨tmul v3.x k, tmul v3.y k, tmul v3.z k⟩
    ∧ Vector3.div tdiv v3 k = ⟨tdiv v3.x k, tdiv v3.y k, tdiv v3.z k⟩
    ∧ Vector2.mul (fun a b => a - b) (⟨5, 7⟩ : Vector2 Int) 2 = ⟨3, 5⟩ := by
  refine ⟨rfl, rfl, rfl, rfl, by decide⟩

end Gemrs
